import Mathlib

/-!
Verification of the process-orchestration core of the jsi portfolio solver
runner.  All definitions in this file are shallow embeddings of
`src/jsi/core.py` (the `Command` / `Task` / `ProcessController` trio), with a
few environment facts of the Python runtime (`subprocess.Popen`, `threading`)
made explicit where the code depends on them.  Blocking points of the real
program (monitor threads, timers, subprocess exits, external kill requests)
are modelled as events of a small-step transition system whose atomic steps
are the lock-protected blocks of the source.
-/

namespace Jsi

/-- Module-level result strings, core.py lines 18-25. -/
def satS : String := "sat"

/-- See `satS`; core.py line 18. -/
def unsatS : String := "unsat"

/-- See `satS`; core.py line 18. -/
def errorS : String := "error"

/-- See `satS`; core.py line 18. -/
def unknownS : String := "unknown"

/-- See `satS`; core.py line 18. -/
def timeoutS : String := "timeout"

/-- See `satS`; core.py line 18. -/
def killedS : String := "killed"

/-- The `TaskResult` enum, core.py lines 60-67. -/
inductive TaskResult where
  | SAT
  | UNSAT
  | ERROR
  | UNKNOWN
  | TIMEOUT
  | KILLED
deriving DecidableEq

/-- The string value carried by each `TaskResult` member (the Python enum
value). -/
def TaskResult.val : TaskResult → String
  | .SAT => satS
  | .UNSAT => unsatS
  | .ERROR => errorS
  | .UNKNOWN => unknownS
  | .TIMEOUT => timeoutS
  | .KILLED => killedS

/-- `TaskResult(s)`: Python enum lookup by value; `none` models the
`ValueError` raised on an unknown value. -/
def taskResultOfValue (s : String) : Option TaskResult :=
  if s = satS then some .SAT
  else if s = unsatS then some .UNSAT
  else if s = errorS then some .ERROR
  else if s = unknownS then some .UNKNOWN
  else if s = timeoutS then some .TIMEOUT
  else if s = killedS then some .KILLED
  else none

/-- The `TaskStatus` enum, core.py lines 69-103. -/
inductive TaskStatus where
  | NOT_STARTED
  | STARTING
  | RUNNING
  | TERMINATING
  | TERMINATED
deriving DecidableEq

/-- The numeric value of each `TaskStatus` member (core.py lines 70-83);
the comparison dunders (lines 85-103) compare these values. -/
def TaskStatus.value : TaskStatus → Nat
  | .NOT_STARTED => 1
  | .STARTING => 2
  | .RUNNING => 3
  | .TERMINATING => 4
  | .TERMINATED => 5

/-- Boolean prefix test on character lists (helper for the Python substring
operator `in`). -/
def charsPre : List Char → List Char → Bool
  | [], _ => true
  | _ :: _, [] => false
  | a :: as, b :: bs => a = b && charsPre as bs

/-- Boolean contiguous-substring test on character lists (helper for the
Python substring operator `in`). -/
def charsSub (p : List Char) : List Char → Bool
  | [] => p.isEmpty
  | b :: bs => charsPre p (b :: bs) || charsSub p bs

/-- Python `pat in s` (substring containment). -/
def strContains (s pat : String) : Bool :=
  charsSub pat.toList s.toList

/-- A text stream backing a subprocess's stdout: the list of lines the
process writes (each line keeps its trailing newline when present in the
underlying bytes), a read position, and whether `seekable()` is true (real
files are seekable, pipes are not). -/
structure TextStream where
  lines : List String
  pos : Nat
  seekableFlag : Bool
deriving DecidableEq

/-- `file.readline()`: return the line at the current position (or `""` at
end of stream, as in Python) and advance the position. -/
def TextStream.readline (f : TextStream) : String × TextStream :=
  (((f.lines.drop f.pos).headD ("")), { f with pos := f.pos + 1 })

/-- `first_line(file)`, core.py lines 45-57: seek to the beginning when the
stream is seekable, then read one line.  Returns the line read and the
stream afterwards. -/
def first_line (f : TextStream) : String × TextStream :=
  let g := if f.seekableFlag then { f with pos := 0 } else f
  g.readline

/-- Where a `Command`'s stdout/stderr is sent (the `stdout`/`stderr` fields
of the dataclass, core.py lines 125-126): `subprocess.PIPE`, a writable file
handle, or `None` (inherit). -/
inductive Sink where
  | toPipe
  | toFile (f : TextStream)
  | inherited
deriving DecidableEq

/-- Model of a `subprocess.Popen` handle.  `returncode` is `none` until the
process has exited (`poll()` returns `None`).  `stdoutStream` models
`Popen.stdout`: per the Python library, it is a readable stream only when
the process was spawned with `stdout=PIPE`, and `None` otherwise (in
particular when stdout was redirected to a file handle). -/
structure Proc where
  returncode : Option Int
  stdoutStream : Option TextStream
deriving DecidableEq

/-- The `Command` dataclass, core.py lines 113-143.  Timestamps
(`start_time`, `end_time`) are omitted: no claim concerns them.  `outLines`
is an environment parameter: the lines this solver process will write to its
stdout once spawned (it feeds `stdoutStream` when spawning with a pipe). -/
structure Command where
  executable : String
  args : List String
  input_file : Option String
  stdoutSink : Sink
  stderrSink : Sink
  has_timed_out : Bool
  on_kill_list : Bool
  proc : Option Proc
  cache : Option String
  start_delay_ms : Nat
  timerArmed : Bool
  outLines : List String
deriving DecidableEq

/-- `Command.started()`, core.py lines 185-186. -/
def Command.started (c : Command) : Bool :=
  c.proc.isSome

/-- `Command.done()`, core.py lines 182-183: spawned and `poll()` not
`None`. -/
def Command.done (c : Command) : Bool :=
  match c.proc with
  | some p => p.returncode.isSome
  | none => false

/-- `Command.start()`, core.py lines 151-170.  Raises when a handle already
exists; with a pending `start_delay_ms` it arms a one-shot timer calling
`self.start` and resets the delay to zero; otherwise it spawns the
subprocess.  Spawning with `stdout=PIPE` yields a readable `Popen.stdout`;
any other sink yields `Popen.stdout = None`. -/
def Command.start (c : Command) : Except String Command :=
  if c.proc.isSome then Except.error ("Process already started")
  else if c.start_delay_ms ≠ 0 then
    Except.ok { c with start_delay_ms := 0, timerArmed := true }
  else
    let out : Option TextStream :=
      if c.stdoutSink = Sink.toPipe then
        some { lines := c.outLines, pos := 0, seekableFlag := false }
      else none
    Except.ok { c with proc := some { returncode := none, stdoutStream := out } }

/-- `Command._get_result()`, core.py lines 219-246: the outcome classifier.
Returns one of the module result strings, or the message of the
`RuntimeError` raised. -/
def Command.getResult (c : Command) : Except String String :=
  match c.proc with
  | none => Except.error ("Process not started")
  | some p =>
    if p.returncode = some (-15) then
      Except.ok (if c.has_timed_out then timeoutS else killedS)
    else
      match p.stdoutStream with
      | none => Except.error ("no stdout")
      | some f =>
        let line := (first_line f).1
        if line = "sat\n" then Except.ok satS
        else if line = "unsat\n" then Except.ok unsatS
        else if strContains line errorS then Except.ok errorS
        else if strContains line ("ASSERT(") then Except.ok satS
        else if c.has_timed_out then Except.ok timeoutS
        else Except.ok unknownS

/-- `Command.result()`, core.py lines 248-252: require the process finished
(`_ensure_finished`, lines 198-206), compute and cache `_get_result` on
first call, convert the cached string with `TaskResult(...)`. -/
def Command.resultOp (c : Command) : Except String (TaskResult × Command) :=
  if ¬ c.started then Except.error ("Process not started")
  else if ¬ c.done then Except.error ("Process still running")
  else
    match c.cache with
    | some s =>
      match taskResultOfValue s with
      | some r => Except.ok (r, c)
      | none => Except.error ("ValueError")
    | none =>
      match c.getResult with
      | Except.error e => Except.error e
      | Except.ok s =>
        match taskResultOfValue s with
        | some r => Except.ok (r, { c with cache := some s })
        | none => Except.error ("ValueError")

/-- `Command.ok()`, core.py lines 208-217: require finished; true iff
`result()` is SAT or UNSAT. -/
def Command.okOp (c : Command) : Except String (Bool × Command) :=
  if ¬ c.started then Except.error ("Process not started")
  else if ¬ c.done then Except.error ("Process still running")
  else
    match c.resultOp with
    | Except.error e => Except.error e
    | Except.ok (r, c1) =>
      Except.ok (r = TaskResult.SAT ∨ r = TaskResult.UNSAT, c1)

/-- The classifier exactly as the spec's ordered rule table states it
(claim C1): first matching rule of the list wins, and the result is a
function of the triple `(returncode, timed_out, first line)` alone. -/
def classifierSpec (rc : Int) (timedOut : Bool) (line : String) : TaskResult :=
  if rc = -15 ∧ timedOut = true then .TIMEOUT
  else if rc = -15 ∧ timedOut = false then .KILLED
  else if line = "sat\n" then .SAT
  else if line = "unsat\n" then .UNSAT
  else if strContains line errorS = true then .ERROR
  else if strContains line ("ASSERT(") = true then .SAT
  else if timedOut = true then .TIMEOUT
  else .UNKNOWN

/-- The `Task` dataclass, core.py lines 294-311: name, the list of member
Commands (represented as indices into the controller's command list),
optional output, the at-most-once result slot `_result`, and the status
machine slot `_status`.  The Task lock makes each accessor below one atomic
step. -/
structure Task where
  name : String
  processes : List Nat
  output : Option String
  _result : Option TaskResult
  _status : TaskStatus
deriving DecidableEq

/-- A freshly constructed `Task(name=...)` with the dataclass defaults
(core.py lines 306-311). -/
def freshTask (n : String) : Task :=
  { name := n, processes := [], output := none, _result := none,
    _status := TaskStatus.NOT_STARTED }

/-- The `status` property setter, core.py lines 318-325: raise on a
backwards transition, otherwise store the new status. -/
def Task.statusSet (t : Task) (new : TaskStatus) : Except String Task :=
  if new.value < t._status.value then
    Except.error ("can not switch backwards")
  else Except.ok { t with _status := new }

/-- `Task.set_status(new, required, expected)`, core.py lines 327-348:
backwards transition raises; a present-but-unequal `required_status` raises;
a present-but-unequal `expected_status` logs and returns without change;
otherwise the status is stored. -/
def Task.set_status (t : Task) (new : TaskStatus)
    (required expected : Option TaskStatus) : Except String Task :=
  if new.value < t._status.value then
    Except.error ("can not switch backwards")
  else
    match required with
    | some r =>
      if t._status ≠ r then Except.error ("required status mismatch")
      else
        match expected with
        | some e => if t._status ≠ e then Except.ok t
                    else Except.ok { t with _status := new }
        | none => Except.ok { t with _status := new }
    | none =>
      match expected with
      | some e => if t._status ≠ e then Except.ok t
                  else Except.ok { t with _status := new }
      | none => Except.ok { t with _status := new }

/-- The `result` property getter, core.py lines 350-353:
`self._result or TaskResult.UNKNOWN` (enum members are truthy, so this is
UNKNOWN exactly when `_result` is still `None`). -/
def Task.resultGet (t : Task) : TaskResult :=
  t._result.getD TaskResult.UNKNOWN

/-- The `result` property setter, core.py lines 355-360: when `_result` is
already set it logs a warning (the returned Bool), and then stores the new
value unconditionally — the assignment on line 360 is outside the `if`. -/
def Task.resultSet (t : Task) (r : TaskResult) : Task × Bool :=
  ({ t with _result := some r }, t._result.isSome)

/-- The `Config` dataclass of the core, core.py lines 106-110.  It has
exactly these three fields; in particular it carries no inter-solver
interval. -/
structure Config where
  early_exit : Bool
  timeout_seconds : ℚ
  debug : Bool
deriving DecidableEq

/-- The CLI/loader `Config` object, src/jsi/config/loader.py lines 10-52
(orchestration-relevant fields).  `interval_seconds` is parsed from
`--interval` and validated by the CLI (cli.py lines 227-228, 260-261); no
code in the repository reads it afterwards. -/
structure LoaderConfig where
  early_exit : Bool
  timeout_seconds : ℚ
  interval_seconds : ℚ
  debug : Bool
  supervisor : Bool
  model : Bool
  csv : Bool
  daemon : Bool
deriving DecidableEq

/-- Global state of one `ProcessController` run (core.py lines 369-383):
the task, the controller's command list (as a total map from index, with
`ncmds` commands actually present), and the configuration.  The `monitors`
thread list is represented by the event alphabet below rather than stored. -/
structure SysState where
  task : Task
  ncmds : Nat
  cmds : Nat → Command
  config : Config

/-- Replace the command at one index. -/
def updCmd (st : SysState) (i : Nat) (c : Command) : SysState :=
  { st with cmds := fun j => if j = i then c else st.cmds j }

/-- Apply the outcome of a Task accessor that may raise; in the trace
semantics a raised exception propagates out of the calling thread without
mutating any state, so the state is returned unchanged. -/
def applySet (st : SysState) (r : Except String Task) : SysState :=
  match r with
  | Except.ok t1 => { st with task := t1 }
  | Except.error _ => st

/-- One killer worker, `ProcessController._kill_process`, core.py lines
513-526: if the process is not done, terminate it.  Deliberate
over-approximation: the model stamps an immediate exit with the SIGTERM
returncode -15, whereas in the source the exit is asynchronous — after the
1-second grace period `_kill_process` sends SIGKILL and returns without
waiting, so a killed process need not be `done()` yet when its killer
finishes.  Consequently no theorem in this file concludes anything about a
member's exit state from a kill; the kill-path theorems concern only the
returned flag and the status writes. -/
def killProcModel (c : Command) : Command :=
  if c.done then c
  else
    match c.proc with
    | some p => { c with proc := some { p with returncode := some (-15) } }
    | none => c

/-- One iteration of the kill loop of `ProcessController.kill`, core.py
lines 484-502: skip unstarted commands, commands already marked
`on_kill_list`, and commands already done; otherwise mark `on_kill_list`
and run a killer worker (the killers are all joined before the function
proceeds, so they are inlined here). -/
def killStep (acc : SysState) (idx : Nat) : SysState :=
  let c := acc.cmds idx
  if ¬ c.started then acc
  else if c.on_kill_list then acc
  else if c.done then acc
  else updCmd acc idx (killProcModel { c with on_kill_list := true })

/-- `ProcessController.kill()`, core.py lines 458-511.  Returns whether the
task was killed, the state afterwards, and the list of status values
written (via the `status` setter) during the call.  Deliberate
coarse-graining: the call is one step here, although the source blocks in
`killer.join()` between the marking loop and the TERMINATED write — a
window in which, e.g., a pending start-delay timer can still spawn a
member command.  Together with the collapsed exit in `killProcModel`,
this means the model must not be used to prove that member processes have
exited when `kill()` writes TERMINATED, and no theorem in this file does
so. -/
def killFn (st : SysState) : Bool × SysState × List TaskStatus :=
  let ts := st.task._status
  if ts.value < TaskStatus.RUNNING.value then (false, st, [])
  else if TaskStatus.TERMINATING.value ≤ ts.value then (false, st, [])
  else
    let st1 := applySet st (st.task.statusSet TaskStatus.TERMINATING)
    let st2 := st1.task.processes.foldl killStep st1
    let st3 := applySet st2 (st2.task.statusSet TaskStatus.TERMINATED)
    (true, st3, [TaskStatus.TERMINATING, TaskStatus.TERMINATED])

/-- Middle of `ProcessController._on_process_finished`, core.py lines
540-547: when the finished command is decisive, early exit is enabled and
the task is not yet TERMINATED, run `self.kill()` and then write
`task.result = command.result()` (the result call hits the cache written by
`ok()`). -/
def earlyExitStage (st : SysState) (i : Nat) (isOk : Bool) : SysState :=
  if isOk = true ∧ st.config.early_exit = true ∧
      st.task._status.value < TaskStatus.TERMINATED.value then
    let stK := (killFn st).2.1
    match (stK.cmds i).resultOp with
    | Except.ok (r, c2) =>
      let stK1 := updCmd stK i c2
      { stK1 with task := (stK1.task.resultSet r).1 }
    | Except.error _ => stK
  else st

/-- Tail of `ProcessController._on_process_finished`, core.py lines
549-558: return unless the task is RUNNING; when every member process is
done, transition to TERMINATED and adopt this command's result if the task
result still reads UNKNOWN. -/
def allDoneStage (st : SysState) (i : Nat) : SysState :=
  if st.task._status ≠ TaskStatus.RUNNING then st
  else if st.task.processes.all (fun j => (st.cmds j).done) then
    let st3 := applySet st (st.task.set_status TaskStatus.TERMINATED none none)
    if st3.task.resultGet = TaskResult.UNKNOWN then
      match (st3.cmds i).resultOp with
      | Except.ok (r, c2) =>
        let st4 := updCmd st3 i c2
        { st4 with task := (st4.task.resultSet r).1 }
      | Except.error _ => st3
    else st3
  else st

/-- `ProcessController._on_process_finished(command)`, core.py lines
528-558, called with `command.started() and command.done()` already checked
by the caller.  `command.ok()` is evaluated first (Python `and` evaluates it
even when `early_exit` is false) and caches the command's result; a
`RuntimeError` escaping it propagates out of the monitor thread without
further mutation; otherwise the early-exit stage and the all-done stage
run in order.  End-time stamping and logging are omitted. -/
def onFinished (st : SysState) (i : Nat) : SysState :=
  match (st.cmds i).okOp with
  | Except.error _ => st
  | Except.ok (isOk, c1) =>
    allDoneStage (earlyExitStage (updCmd st i c1) i isOk) i

/-- The atomic events of one run.  Each event is a lock-protected block of
the source executed by some thread: the main thread's two halves of
`ProcessController.start` (which are separated by the monitor threads it
spawns), a monitor thread's pre-wait block, a `threading.Timer` callback
(`Command.start`, armed by a delayed start), a subprocess exiting on its
own with some returncode, a `TimeoutExpired` from `Command.wait`, a killer
worker spawned by a monitor timeout, a monitor thread's `finally` block,
and an external `ProcessController.kill()` call (signal handler or
KeyboardInterrupt). -/
inductive Event where
  | startBegin
  | startFinish
  | monitorEnter (i : Nat)
  | timerFire (i : Nat)
  | procExit (i : Nat) (rc : Int)
  | monitorTimeout (i : Nat)
  | killerRun (i : Nat)
  | monitorFinally (i : Nat)
  | extKill

/-- One atomic step of the trace semantics.  Events whose thread cannot
exist or whose guarding condition fails in the real program leave the state
unchanged, as does any step whose Python original raises (the exception
unwinds the thread without mutating shared state). -/
def step (st : SysState) : Event → SysState
  | Event.startBegin =>
    -- core.py 395-410: raise on an empty command list; set STARTING with
    -- required NOT_STARTED; append every command to task.processes and
    -- spawn its monitor thread.
    if st.ncmds = 0 then st
    else
      match st.task.set_status TaskStatus.STARTING
          (some TaskStatus.NOT_STARTED) none with
      | Except.error _ => st
      | Except.ok t1 =>
        { st with task :=
          { t1 with processes := t1.processes ++ List.range st.ncmds } }
  | Event.startFinish =>
    -- core.py 414: soft STARTING → RUNNING advance.
    applySet st (st.task.set_status TaskStatus.RUNNING none
      (some TaskStatus.STARTING))
  | Event.monitorEnter i =>
    -- core.py 429-435: read the task status once; only when it is STARTING
    -- call command.start() (which either spawns or arms the delay timer).
    if i < st.ncmds then
      if st.task._status = TaskStatus.STARTING then
        match (st.cmds i).start with
        | Except.ok c1 => updCmd st i c1
        | Except.error _ => st
      else st
    else st
  | Event.timerFire i =>
    -- core.py 162-164: the one-shot timer's callback is command.start
    -- itself; the delay was already reset to zero, so this spawn happens
    -- with no re-read of the task status.
    if i < st.ncmds then
      let c := st.cmds i
      if c.timerArmed then
        match { c with timerArmed := false }.start with
        | Except.ok c1 => updCmd st i c1
        | Except.error _ => updCmd st i { c with timerArmed := false }
      else st
    else st
  | Event.procExit i rc =>
    -- The subprocess exits on its own with returncode rc.
    if i < st.ncmds then
      let c := st.cmds i
      match c.proc with
      | some p =>
        if p.returncode = none then
          updCmd st i { c with proc := some { p with returncode := some rc } }
        else st
      | none => st
    else st
  | Event.monitorTimeout i =>
    -- core.py 436-441: Command.wait raised TimeoutExpired; possible only
    -- when a deadline was passed (timeout_seconds nonzero) and the spawned
    -- process has not exited; sets has_timed_out and spawns a killer
    -- worker for this command (the killerRun event).
    if i < st.ncmds then
      let c := st.cmds i
      if st.config.timeout_seconds ≠ 0 ∧ c.started = true ∧ c.done = false then
        updCmd st i { c with has_timed_out := true }
      else st
    else st
  | Event.killerRun i =>
    -- core.py 513-526 running as its own thread (spawned on timeout).
    if i < st.ncmds then
      let c := st.cmds i
      if c.started = true ∧ c.done = false then updCmd st i (killProcModel c)
      else st
    else st
  | Event.monitorFinally i =>
    -- core.py 442-449: close the sinks (not modelled), then notify the
    -- controller when the command actually started and finished.
    if i < st.ncmds then
      let c := st.cmds i
      if c.started = true ∧ c.done = true then onFinished st i else st
    else st
  | Event.extKill =>
    -- An external ProcessController.kill() call.
    (killFn st).2.1

/-- Run a list of events from a state. -/
def run (st : SysState) : List Event → SysState
  | [] => st
  | e :: es => run (step st e) es

/-- The timeout argument passed to `Command.wait` by the monitor, core.py
line 433: `self.config.timeout_seconds or None`, i.e. no deadline exactly
when the configured timeout is 0. -/
def waitArgOf (cfg : Config) : Option ℚ :=
  if cfg.timeout_seconds = 0 then none else some cfg.timeout_seconds

/-- Whether `Popen.wait(timeout)` raises `TimeoutExpired`: never without a
deadline; with deadline `d`, exactly when the process does not exit within
`d` seconds (`exitTime = none` models a process that never exits). -/
def timesOut (dl exitTime : Option ℚ) : Bool :=
  match dl with
  | none => false
  | some d =>
    match exitTime with
    | none => true
    | some t => decide (d < t)

/-- Observable effects of one monitor worker
(`ProcessController._monitor_process`, core.py lines 416-449), recorded for
the claims about its behaviour. -/
structure MonitorOutcome where
  startCalled : Bool
  spawned : Bool
  waitCalled : Bool
  waitDl : Option ℚ
  timedOutFlagSet : Bool
  killerThreadSpawned : Bool
  cohortKillInvoked : Bool
  timeoutPropagated : Bool
  otherRaised : Bool
deriving DecidableEq

/-- Sequential model of one monitor worker for a single command, core.py
lines 424-441: read the task status; when STARTING, call `command.start()`
and `command.wait(timeout=self.config.timeout_seconds or None)`;
`TimeoutExpired` is caught: it sets `has_timed_out` and spawns a killer
thread targeting this command only (`self._kill_process`, not
`self.kill()`), and is not re-raised.  `exitTime` is how long the spawned
process would run; `rcv` its natural returncode.  The `finally` block is
covered by the `monitorFinally` event of the trace semantics. -/
def monitorModel (taskStatus : TaskStatus) (cfg : Config) (c : Command)
    (exitTime : Option ℚ) (rcv : Int) : MonitorOutcome × Command :=
  if taskStatus = TaskStatus.STARTING then
    match c.start with
    | Except.error _ =>
      ({ startCalled := true, spawned := false, waitCalled := false,
         waitDl := none, timedOutFlagSet := false,
         killerThreadSpawned := false, cohortKillInvoked := false,
         timeoutPropagated := false, otherRaised := true }, c)
    | Except.ok c1 =>
      if c1.started = false then
        -- a delayed start armed its timer; wait() returns at once because
        -- the process handle is still None (core.py 172-177)
        ({ startCalled := true, spawned := false, waitCalled := true,
           waitDl := waitArgOf cfg, timedOutFlagSet := false,
           killerThreadSpawned := false, cohortKillInvoked := false,
           timeoutPropagated := false, otherRaised := false }, c1)
      else
        let dl := waitArgOf cfg
        if timesOut dl exitTime then
          ({ startCalled := true, spawned := true, waitCalled := true,
             waitDl := dl, timedOutFlagSet := true,
             killerThreadSpawned := true, cohortKillInvoked := false,
             timeoutPropagated := false, otherRaised := false },
           { c1 with has_timed_out := true })
        else
          let pr2 := c1.proc.map (fun p => { p with returncode := some rcv })
          let c2 := { c1 with proc := pr2 }
          ({ startCalled := true, spawned := true, waitCalled := true,
             waitDl := dl, timedOutFlagSet := false,
             killerThreadSpawned := false, cohortKillInvoked := false,
             timeoutPropagated := false, otherRaised := false }, c2)
  else
    ({ startCalled := false, spawned := false, waitCalled := false,
       waitDl := none, timedOutFlagSet := false,
       killerThreadSpawned := false, cohortKillInvoked := false,
       timeoutPropagated := false, otherRaised := false }, c)

/-- A command as built by the driver: no process yet, empty metadata,
capturing stdout through a pipe (as the repository's tests do). -/
def baseCommand : Command :=
  { executable := "python", args := [], input_file := none,
    stdoutSink := Sink.toPipe, stderrSink := Sink.toPipe,
    has_timed_out := false, on_kill_list := false, proc := none,
    cache := none, start_delay_ms := 0, timerArmed := false, outLines := [] }

/-- The default core `Config()`. -/
def cfgDefault : Config :=
  { early_exit := true, timeout_seconds := 0, debug := false }

/-- A solver that would print `unsat` but whose start is delayed by 5000 ms
(the repository's own scenario, tests/test_process_control.py lines
248-269). -/
def cmdDelayed : Command :=
  { baseCommand with start_delay_ms := 5000, outLines := ["unsat\n"] }

/-- A fast solver printing `sat`. -/
def cmdSat : Command :=
  { baseCommand with outLines := ["sat\n"] }

/-- Initial controller state for the delayed-start counterexample: one
delayed command. -/
def init3 : SysState :=
  { task := freshTask ("t3"), ncmds := 1, cmds := fun _ => cmdDelayed,
    config := cfgDefault }

/-- Events up to the cancellation: the controller starts, the monitor reads
STARTING and arms the delay timer, the task reaches RUNNING, and an
external kill (signal handler) drives it to TERMINATED. -/
def trace3pre : List Event :=
  [Event.startBegin, Event.monitorEnter 0, Event.startFinish, Event.extKill]

/-- The same run after the armed timer fires. -/
def trace3 : List Event :=
  trace3pre ++ [Event.timerFire 0]

/-- Two plain commands for the interval-staggering claim. -/
def cmd40 : Command :=
  { baseCommand with executable := "yices-smt2" }

/-- See `cmd40`. -/
def cmd41 : Command :=
  { baseCommand with executable := "z3" }

/-- Initial controller state with two commands and no delays. -/
def init4 : SysState :=
  { task := freshTask ("t4"), ncmds := 2,
    cmds := fun i => if i = 0 then cmd40 else cmd41, config := cfgDefault }

/-- A CLI configuration requesting `--interval 100ms` (loader.py field
`interval_seconds`); nothing in the repository consumes this field after
validation. -/
def loaderCfg4 : LoaderConfig :=
  { early_exit := true, timeout_seconds := 0, interval_seconds := 1/10,
    debug := false, supervisor := false, model := false, csv := false,
    daemon := false }

/-- Initial state for the TERMINATED-members scenario: command 0 has a
5000 ms start delay, command 1 answers `sat` immediately (spec scenario 5,
tests/test_process_control.py lines 248-269). -/
def init7 : SysState :=
  { task := freshTask ("t7"), ncmds := 2,
    cmds := fun i => if i = 0 then cmdDelayed else cmdSat,
    config := cfgDefault }

/-- Run prefix: both monitors read STARTING; monitor 0 arms its delay
timer, monitor 1 spawns; process 1 exits with code 0; the main thread
advances to RUNNING. -/
def trace7pre : List Event :=
  [Event.startBegin, Event.monitorEnter 0, Event.monitorEnter 1,
   Event.procExit 1 0, Event.startFinish]

/-- Monitor 1's finally block: the decisive `sat` triggers the early-exit
kill, driving the task to TERMINATED while command 0 is still unstarted. -/
def trace7 : List Event :=
  trace7pre ++ [Event.monitorFinally 1]

/-- The live (not yet exited) process handle of `cmdRunning`. -/
def procRunning : Proc :=
  { returncode := none,
    stdoutStream := some { lines := [], pos := 0, seekableFlag := false } }

/-- A command whose process is spawned and still running. -/
def cmdRunning : Command :=
  { baseCommand with proc := some procRunning }

/-- The task of `stC5`: status RUNNING with member command 0. -/
def taskC5 : Task :=
  { freshTask ("t5") with _status := TaskStatus.RUNNING, processes := [0] }

/-- A controller state in status RUNNING with one live process, for the
kill-gate witness. -/
def stC5 : SysState :=
  { task := taskC5, ncmds := 1, cmds := fun _ => cmdRunning,
    config := cfgDefault }

/-- A finished process that printed `unsat` to a pipe and exited 0. -/
def procW1 : Proc :=
  { returncode := some 0,
    stdoutStream := some { lines := ["unsat\n"], pos := 0, seekableFlag := false } }

/-- A finished command wrapping `procW1`, for the classifier witness. -/
def cmdW1 : Command :=
  { baseCommand with proc := some procW1 }

/-- The task of `stC7`: status RUNNING with the single member command 0. -/
def taskC7 : Task :=
  { freshTask ("t7w") with _status := TaskStatus.RUNNING, processes := [0] }

/-- A controller state whose last running monitor is about to observe the
single member finished: that member printed `unsat` to its pipe and
exited 0. -/
def stC7 : SysState :=
  { task := taskC7, ncmds := 1, cmds := fun _ => cmdW1, config := cfgDefault }

/-- Config with a 1-second timeout, for the monitor-timeout witness. -/
def cfgW8 : Config :=
  { early_exit := true, timeout_seconds := 1, debug := false }

/-- The stdout file of a solver run captured to disk: a writable, seekable
file whose first line is `sat`. -/
def fileW9 : TextStream :=
  { lines := ["sat\n"], pos := 0, seekableFlag := true }

/-- A command whose stdout sink is the writable file handle `fileW9`
(as the CLI driver does with `open(stdout_file, "w")`). -/
def cmdFilePre : Command :=
  { baseCommand with stdoutSink := Sink.toFile fileW9 }

/-- The same command after its process was spawned and exited with code 0.
Per the Python library, `Popen.stdout` is `None` because stdout was not
`PIPE`, which is exactly what `Command.start` records. -/
def cmdFileDone : Command :=
  { cmdFilePre with proc := some { returncode := some 0, stdoutStream := none } }

/-! Helper lemmas. -/

theorem applySet_cmds (st : SysState) (r : Except String Task) :
    (applySet st r).cmds = st.cmds := by
  unfold applySet
  cases r <;> rfl

theorem applySet_ncmds (st : SysState) (r : Except String Task) :
    (applySet st r).ncmds = st.ncmds := by
  unfold applySet
  cases r <;> rfl

theorem step_startBegin_cmds (st : SysState) :
    (step st Event.startBegin).cmds = st.cmds := by
  show (if st.ncmds = 0 then st
    else match st.task.set_status TaskStatus.STARTING
        (some TaskStatus.NOT_STARTED) none with
      | Except.error _ => st
      | Except.ok t1 =>
        { st with task :=
          { t1 with processes := t1.processes ++ List.range st.ncmds } }).cmds
    = st.cmds
  by_cases h : st.ncmds = 0
  · simp [h]
  · simp only [h, if_false]
    cases st.task.set_status TaskStatus.STARTING
      (some TaskStatus.NOT_STARTED) none <;> rfl

theorem step_startFinish_cmds (st : SysState) :
    (step st Event.startFinish).cmds = st.cmds :=
  applySet_cmds st _

theorem taskResultOfValue_val (r : TaskResult) :
    taskResultOfValue r.val = some r := by
  cases r <;> decide

/-- The embedded `_get_result` agrees with the spec's ordered rule table
whenever the process has exited and — unless it was SIGTERMed — its stdout
stream exists. -/
theorem getResult_eq_classifier (c : Command) (p : Proc) (rc : Int)
    (hp : c.proc = some p) (hrc : p.returncode = some rc)
    (hstd : rc = -15 ∨ p.stdoutStream.isSome = true) :
    c.getResult = Except.ok ((classifierSpec rc c.has_timed_out
      (first_line (p.stdoutStream.getD
        { lines := [], pos := 0, seekableFlag := false })).1).val) := by
  unfold Command.getResult
  by_cases h15 : rc = -15
  · subst h15
    simp only [hp, hrc, if_pos rfl, classifierSpec]
    cases hto : c.has_timed_out <;> simp [TaskResult.val]
  · obtain ⟨f, hf⟩ : ∃ f, p.stdoutStream = some f := by
      rcases hstd with h | h
      · exact absurd h h15
      · exact Option.isSome_iff_exists.mp h
    have hne : ¬ (some rc = some (-15 : Int)) := by
      intro hcon
      exact h15 (Option.some_injective _ hcon)
    simp only [hp, hrc, hf, if_neg hne, Option.getD_some, classifierSpec]
    have h15a : ¬ (rc = -15 ∧ c.has_timed_out = true) := fun hc => h15 hc.1
    have h15b : ¬ (rc = -15 ∧ c.has_timed_out = false) := fun hc => h15 hc.1
    rw [if_neg h15a, if_neg h15b]
    by_cases hsat : (first_line f).1 = "sat\n"
    · simp [hsat, TaskResult.val]
    · rw [if_neg hsat, if_neg hsat]
      by_cases hunsat : (first_line f).1 = "unsat\n"
      · simp [hunsat, TaskResult.val]
      · rw [if_neg hunsat, if_neg hunsat]
        by_cases herr : strContains (first_line f).1 errorS = true
        · simp [herr, TaskResult.val]
        · rw [if_neg herr, if_neg herr]
          by_cases hass : strContains (first_line f).1 ("ASSERT(") = true
          · simp [hass, TaskResult.val]
          · rw [if_neg hass, if_neg hass]
            cases hto : c.has_timed_out <;> simp [TaskResult.val]

/-! Claim theorems. -/

/-- C1: for every finished Command (spawned, exited, result not yet
cached, and — except in the SIGTERM case — with a readable stdout stream),
`result()` returns exactly the first matching rule of the spec's ordered
list, a function only of the triple (returncode, timed_out, first line);
the string form of that rule is cached on the Command. -/
theorem result_matches_ordered_rules (c : Command) (p : Proc) (rc : Int)
    (hp : c.proc = some p) (hrc : p.returncode = some rc)
    (hcache : c.cache = none)
    (hstd : rc = -15 ∨ p.stdoutStream.isSome = true) :
    c.resultOp = Except.ok (classifierSpec rc c.has_timed_out
        (first_line (p.stdoutStream.getD
          { lines := [], pos := 0, seekableFlag := false })).1,
      { c with cache := some ((classifierSpec rc c.has_timed_out
        (first_line (p.stdoutStream.getD
          { lines := [], pos := 0, seekableFlag := false })).1).val) }) := by
  have hstart : c.started = true := by simp [Command.started, hp]
  have hdone : c.done = true := by simp [Command.done, hp, hrc]
  unfold Command.resultOp
  rw [getResult_eq_classifier c p rc hp hrc hstd]
  simp [hstart, hdone, hcache, taskResultOfValue_val]

/-- Witness for C1: a finished command that printed `unsat` classifies as
UNSAT with the rule table. -/
theorem result_matches_ordered_rules_witness :
    cmdW1.resultOp = Except.ok (TaskResult.UNSAT,
      { cmdW1 with cache := some unsatS }) :=
  result_matches_ordered_rules cmdW1 procW1 0 rfl rfl rfl
    (Or.inr rfl)

/-- C2 counterexample: writing a second result does not keep the first
value — the setter logs the duplicate but stores the new value (core.py
line 360 runs unconditionally). -/
theorem resultSet_second_write_overwrites_cex :
    ((((freshTask ("t2")).resultSet TaskResult.SAT).1.resultSet
        TaskResult.UNSAT).1)._result = some TaskResult.UNSAT ∧
    ((((freshTask ("t2")).resultSet TaskResult.SAT).1.resultSet
        TaskResult.UNSAT).1)._result ≠ some TaskResult.SAT :=
  ⟨rfl, by decide⟩

/-- C2 amended: the result setter never raises; a duplicate write is
logged (the returned flag) but the stored result is replaced by the new
value — last write wins, and the status is untouched. -/
theorem resultSet_last_write_wins (t : Task) (r : TaskResult) :
    ((t.resultSet r).1)._result = some r ∧
    (t.resultSet r).2 = t._result.isSome ∧
    ((t.resultSet r).1)._status = t._status ∧
    ((t.resultSet r).1).processes = t.processes :=
  ⟨rfl, rfl, rfl, rfl⟩

/-- C3: a Command with a positive start delay whose monitor armed the
timer while the task was STARTING is not protected by cancellation: after
the task has been driven all the way to TERMINATED, the timer callback
(`Command.start` itself) spawns the subprocess anyway — `started()` does
not stay false, because nothing re-reads `Task.status` when the timer
fires. -/
theorem delayed_command_spawns_after_cancellation :
    (run init3 trace3pre).task._status = TaskStatus.TERMINATED ∧
    ((run init3 trace3pre).cmds 0).started = false ∧
    ((run init3 trace3pre).cmds 0).timerArmed = true ∧
    (run init3 trace3).task._status = TaskStatus.TERMINATED ∧
    ((run init3 trace3).cmds 0).started = true :=
  ⟨rfl, rfl, rfl, rfl, rfl⟩

/-- C4: `ProcessController.start` (both its halves) never modifies any
command — in particular it sets no `start_delay_ms` — and concretely, a
run configured with a positive CLI interval of 100 ms leaves both
commands' delays at zero: no staggering exists in the code. -/
theorem controller_start_never_sets_delays :
    (∀ st : SysState, (step st Event.startBegin).cmds = st.cmds ∧
        (step st Event.startFinish).cmds = st.cmds) ∧
    0 < loaderCfg4.interval_seconds ∧
    (run init4 [Event.startBegin, Event.startFinish]).cmds 0 = cmd40 ∧
    (run init4 [Event.startBegin, Event.startFinish]).cmds 1 = cmd41 ∧
    ((run init4 [Event.startBegin, Event.startFinish]).cmds 0).start_delay_ms
      = 0 ∧
    ((run init4 [Event.startBegin, Event.startFinish]).cmds 1).start_delay_ms
      = 0 ∧
    (run init4 [Event.startBegin, Event.startFinish]).task._status
      = TaskStatus.RUNNING :=
  ⟨fun st => ⟨step_startBegin_cmds st, step_startFinish_cmds st⟩,
   by norm_num [loaderCfg4], rfl, rfl, rfl, rfl, rfl⟩

/-- C9: for a finished Command whose stdout was captured to a writable
file handle (returncode 0, file first line `sat`), `result()` does not
read the file at all: `Popen.stdout` is `None` for non-PIPE sinks, so it
raises `RuntimeError("no stdout")`. -/
theorem file_capture_result_raises_no_stdout :
    cmdFileDone.done = true ∧
    cmdFileDone.stdoutSink = Sink.toFile fileW9 ∧
    (first_line fileW9).1 = "sat\n" ∧
    cmdFilePre.start = Except.ok { cmdFilePre with
      proc := some { returncode := none, stdoutStream := none } } ∧
    cmdFileDone.resultOp = Except.error ("no stdout") :=
  ⟨rfl, rfl, rfl, rfl, rfl⟩

/-- C10: a Task whose result was never set reads as UNKNOWN — the getter
totalises `_result` with UNKNOWN, and a freshly constructed Task has
`_result = None`. -/
theorem task_result_defaults_to_unknown (t : Task) (n : String) :
    (t._result = none → t.resultGet = TaskResult.UNKNOWN) ∧
    (freshTask n)._result = none := by
  constructor
  · intro h
    simp [Task.resultGet, h]
  · rfl

/-- Witness for C10. -/
theorem task_result_defaults_to_unknown_witness :
    (freshTask ("q")).resultGet = TaskResult.UNKNOWN :=
  (task_result_defaults_to_unknown (freshTask ("q")) ("q")).1 rfl


/-! Kill-path helper lemmas. -/

theorem applySet_ok (st : SysState) (t1 : Task) :
    applySet st (Except.ok t1) = { st with task := t1 } := rfl

theorem statusSet_ok (t : Task) (new : TaskStatus)
    (h : ¬ new.value < t._status.value) :
    t.statusSet new = Except.ok { t with _status := new } := by
  simp only [Task.statusSet, if_neg h]

theorem killStep_task (acc : SysState) (idx : Nat) :
    (killStep acc idx).task = acc.task := by
  simp only [killStep, updCmd]
  repeat' split
  all_goals rfl

theorem foldl_killStep_task (l : List Nat) (acc : SysState) :
    (List.foldl killStep acc l).task = acc.task := by
  induction l generalizing acc with
  | nil => rfl
  | cons p rest ih => rw [List.foldl_cons, ih, killStep_task]

theorem killFn_not_running (st : SysState)
    (h : st.task._status ≠ TaskStatus.RUNNING) :
    killFn st = (false, st, []) := by
  unfold killFn
  cases hts : st.task._status
  case RUNNING => exact absurd hts h
  all_goals norm_num [TaskStatus.value]

theorem killFn_running_eq (st : SysState)
    (h : st.task._status = TaskStatus.RUNNING) :
    killFn st =
      (true,
       applySet
         (List.foldl killStep (applySet st (st.task.statusSet TaskStatus.TERMINATING))
           (applySet st (st.task.statusSet TaskStatus.TERMINATING)).task.processes)
         ((List.foldl killStep (applySet st (st.task.statusSet TaskStatus.TERMINATING))
           (applySet st (st.task.statusSet TaskStatus.TERMINATING)).task.processes).task.statusSet
             TaskStatus.TERMINATED),
       [TaskStatus.TERMINATING, TaskStatus.TERMINATED]) := by
  unfold killFn
  rw [h]
  norm_num [TaskStatus.value]

theorem killFn_running_parts (st : SysState)
    (h : st.task._status = TaskStatus.RUNNING) :
    (killFn st).1 = true ∧
    ((killFn st).2.1).task._status = TaskStatus.TERMINATED ∧
    ((killFn st).2.1).task.processes = st.task.processes ∧
    (killFn st).2.2 = [TaskStatus.TERMINATING, TaskStatus.TERMINATED] := by
  have hTing : (applySet st (st.task.statusSet TaskStatus.TERMINATING)).task
      = { st.task with _status := TaskStatus.TERMINATING } := by
    rw [statusSet_ok st.task TaskStatus.TERMINATING (by rw [h]; decide),
      applySet_ok]
  have hfold : (List.foldl killStep
      (applySet st (st.task.statusSet TaskStatus.TERMINATING))
      (applySet st (st.task.statusSet TaskStatus.TERMINATING)).task.processes).task
      = { st.task with _status := TaskStatus.TERMINATING } := by
    rw [foldl_killStep_task]
    exact hTing
  have hlast : ((List.foldl killStep
      (applySet st (st.task.statusSet TaskStatus.TERMINATING))
      (applySet st (st.task.statusSet TaskStatus.TERMINATING)).task.processes).task.statusSet
        TaskStatus.TERMINATED)
      = Except.ok { (List.foldl killStep
          (applySet st (st.task.statusSet TaskStatus.TERMINATING))
          (applySet st (st.task.statusSet TaskStatus.TERMINATING)).task.processes).task
          with _status := TaskStatus.TERMINATED } := by
    apply statusSet_ok
    rw [hfold]
    norm_num [TaskStatus.value]
  have he := killFn_running_eq st h
  rw [he]
  refine ⟨rfl, ?_, ?_, rfl⟩
  · rw [hlast, applySet_ok]
  · rw [hlast, applySet_ok]
    simp only [hfold]

/-- C5: `ProcessController.kill` succeeds — returning true and writing
TERMINATING then TERMINATED through the status setter — exactly when the
task status at entry is at least RUNNING and strictly below TERMINATING;
in every other status it returns false and leaves the whole state
untouched. -/
theorem kill_gate (st : SysState) :
    (TaskStatus.RUNNING.value ≤ st.task._status.value ∧
        st.task._status.value < TaskStatus.TERMINATING.value →
      (killFn st).1 = true ∧
      ((killFn st).2.1).task._status = TaskStatus.TERMINATED ∧
      (killFn st).2.2 = [TaskStatus.TERMINATING, TaskStatus.TERMINATED]) ∧
    (¬ (TaskStatus.RUNNING.value ≤ st.task._status.value ∧
        st.task._status.value < TaskStatus.TERMINATING.value) →
      killFn st = (false, st, [])) := by
  constructor
  · rintro ⟨h1, h2⟩
    have hr : st.task._status = TaskStatus.RUNNING := by
      cases hts : st.task._status
      case RUNNING => rfl
      all_goals exfalso
      all_goals rw [hts] at h1 h2
      all_goals simp only [TaskStatus.value] at h1 h2
      all_goals omega
    obtain ⟨a, b, _, d⟩ := killFn_running_parts st hr
    exact ⟨a, b, d⟩
  · intro h
    apply killFn_not_running
    intro hr
    rw [hr] at h
    exact h (by simp [TaskStatus.value])

/-- Witness for C5: from a RUNNING task with one live process, kill
returns true, reaches TERMINATED, and writes exactly TERMINATING then
TERMINATED. -/
theorem kill_gate_witness :
    (killFn stC5).1 = true ∧
    ((killFn stC5).2.1).task._status = TaskStatus.TERMINATED ∧
    (killFn stC5).2.2 = [TaskStatus.TERMINATING, TaskStatus.TERMINATED] :=
  (kill_gate stC5).1 (by decide)

/-- C6: full behaviour of `Task.set_status`: a backwards transition is a
hard error; a present-but-different `required_status` is a hard error; a
present-but-different `expected_status` returns softly with the task
unchanged; otherwise the new status is stored.  Every successful call
leaves the status no smaller than before (and the plain status setter
shares the monotonicity guard), so `Task.status` never decreases. -/
theorem set_status_behaviour (t : Task) (new : TaskStatus)
    (required expected : Option TaskStatus) :
    (new.value < t._status.value →
      ∃ e, t.set_status new required expected = Except.error e) ∧
    (¬ new.value < t._status.value → ∀ r, required = some r → t._status ≠ r →
      ∃ e, t.set_status new required expected = Except.error e) ∧
    (¬ new.value < t._status.value →
      (required = none ∨ required = some t._status) →
      ∀ e2, expected = some e2 → t._status ≠ e2 →
      t.set_status new required expected = Except.ok t) ∧
    (¬ new.value < t._status.value →
      (required = none ∨ required = some t._status) →
      (expected = none ∨ expected = some t._status) →
      t.set_status new required expected
        = Except.ok { t with _status := new }) ∧
    (∀ t1, t.set_status new required expected = Except.ok t1 →
      t._status.value ≤ t1._status.value ∧ t1.processes = t.processes ∧
      t1._result = t._result) ∧
    (∀ t1, t.statusSet new = Except.ok t1 →
      t._status.value ≤ t1._status.value) := by
  refine ⟨?_, ?_, ?_, ?_, ?_, ?_⟩
  · intro h
    refine ⟨("can not switch backwards"), ?_⟩
    simp only [Task.set_status]
    rw [if_pos h]
  · intro h r hr hne
    subst hr
    refine ⟨("required status mismatch"), ?_⟩
    simp only [Task.set_status]
    rw [if_neg h, if_pos hne]
  · intro h hreq e2 he2 hne
    subst he2
    rcases hreq with hn | hs
    · subst hn
      simp only [Task.set_status]
      rw [if_neg h, if_pos hne]
    · rw [hs]
      simp only [Task.set_status]
      rw [if_neg h, if_neg (fun hc => hc rfl), if_pos hne]
  · intro h hreq hexp
    rcases hreq with hn | hs <;> rcases hexp with en | es
    · subst hn; subst en
      simp only [Task.set_status]
      rw [if_neg h]
    · subst hn; rw [es]
      simp only [Task.set_status]
      rw [if_neg h, if_neg (fun hc => hc rfl)]
    · rw [hs]; subst en
      simp only [Task.set_status]
      rw [if_neg h, if_neg (fun hc => hc rfl)]
    · rw [hs, es]
      simp only [Task.set_status]
      rw [if_neg h, if_neg (fun hc => hc rfl), if_neg (fun hc => hc rfl)]
  · intro t1 h1
    simp only [Task.set_status] at h1
    split at h1
    · exact absurd h1 (by simp)
    · rename_i hlt
      have hle : t._status.value ≤ new.value := Nat.le_of_not_lt hlt
      split at h1
      · split at h1
        · exact absurd h1 (by simp)
        · split at h1
          · split at h1
            · cases h1
              exact ⟨Nat.le_refl _, rfl, rfl⟩
            · cases h1
              exact ⟨hle, rfl, rfl⟩
          · cases h1
            exact ⟨hle, rfl, rfl⟩
      · split at h1
        · split at h1
          · cases h1
            exact ⟨Nat.le_refl _, rfl, rfl⟩
          · cases h1
            exact ⟨hle, rfl, rfl⟩
        · cases h1
          exact ⟨hle, rfl, rfl⟩
  · intro t1 h1
    simp only [Task.statusSet] at h1
    split at h1
    · exact absurd h1 (by simp)
    · rename_i hlt
      cases h1
      exact Nat.le_of_not_lt hlt

/-- Witness for C6: advancing a RUNNING task to TERMINATING with no
required or expected status stores the new status. -/
theorem set_status_behaviour_witness :
    taskC5.set_status TaskStatus.TERMINATING none none
      = Except.ok { taskC5 with _status := TaskStatus.TERMINATING } :=
  (set_status_behaviour taskC5 TaskStatus.TERMINATING none none).2.2.2.1
    (by decide) (Or.inl rfl) (Or.inl rfl)

/-- C8: behaviour of the monitor worker around `Command.wait`: with the
configured timeout equal to 0 it waits with no deadline at all; when a
positive timeout expires before the process exits, it sets the command's
`has_timed_out` flag, spawns a killer thread for this one command (never
invoking the cohort-wide `kill`), and swallows the `TimeoutExpired`. -/
theorem monitor_timeout_handling (cfg : Config) (c : Command)
    (exitTime : Option ℚ) (rcv : Int)
    (hproc : c.proc = none) (hdelay : c.start_delay_ms = 0) :
    (cfg.timeout_seconds = 0 →
      (monitorModel TaskStatus.STARTING cfg c exitTime rcv).1.waitCalled
          = true ∧
      (monitorModel TaskStatus.STARTING cfg c exitTime rcv).1.waitDl
          = none) ∧
    (0 < cfg.timeout_seconds →
      timesOut (some cfg.timeout_seconds) exitTime = true →
      (monitorModel TaskStatus.STARTING cfg c exitTime rcv).1.timedOutFlagSet
          = true ∧
      (monitorModel TaskStatus.STARTING cfg c exitTime
          rcv).1.killerThreadSpawned = true ∧
      (monitorModel TaskStatus.STARTING cfg c exitTime
          rcv).1.cohortKillInvoked = false ∧
      (monitorModel TaskStatus.STARTING cfg c exitTime
          rcv).1.timeoutPropagated = false ∧
      ((monitorModel TaskStatus.STARTING cfg c exitTime
          rcv).2).has_timed_out = true) := by
  have hs : c.start = Except.ok { c with proc := some (Proc.mk none
      (if c.stdoutSink = Sink.toPipe
        then some (TextStream.mk c.outLines 0 false) else none)) } := by
    simp [Command.start, hproc, hdelay]
  constructor
  · intro h0
    have hd : waitArgOf cfg = none := by simp [waitArgOf, h0]
    simp [monitorModel, hs, Command.started, hd, timesOut]
  · intro hpos htos
    have hne : cfg.timeout_seconds ≠ 0 := ne_of_gt hpos
    have hd : waitArgOf cfg = some cfg.timeout_seconds := by
      simp [waitArgOf, hne]
    simp [monitorModel, hs, Command.started, hd, htos]

/-- Witness for C8: with a 1-second timeout and a process that never
exits, the monitor marks the timeout, spawns the single-command killer,
and does not propagate. -/
theorem monitor_timeout_handling_witness :
    (monitorModel TaskStatus.STARTING cfgW8 baseCommand none
        0).1.timedOutFlagSet = true ∧
    (monitorModel TaskStatus.STARTING cfgW8 baseCommand none
        0).1.killerThreadSpawned = true ∧
    (monitorModel TaskStatus.STARTING cfgW8 baseCommand none
        0).1.cohortKillInvoked = false ∧
    (monitorModel TaskStatus.STARTING cfgW8 baseCommand none
        0).1.timeoutPropagated = false ∧
    ((monitorModel TaskStatus.STARTING cfgW8 baseCommand none
        0).2).has_timed_out = true :=
  (monitor_timeout_handling cfgW8 baseCommand none 0 rfl rfl).2
    (by norm_num [cfgW8]) rfl

/-! Lemmas for the TERMINATED-implies-finished analysis. -/

theorem done_congr (c1 c : Command) (h : c1.proc = c.proc) :
    c1.done = c.done := by
  simp [Command.done, h]

theorem resultOp_shape (c : Command) (r : TaskResult) (c2 : Command)
    (h : c.resultOp = Except.ok (r, c2)) :
    c2.proc = c.proc ∧ c2.on_kill_list = c.on_kill_list := by
  simp only [Command.resultOp] at h
  split at h
  · exact absurd h (by simp)
  · split at h
    · exact absurd h (by simp)
    · split at h
      · split at h
        · cases h
          exact ⟨rfl, rfl⟩
        · exact absurd h (by simp)
      · split at h
        · exact absurd h (by simp)
        · split at h
          · cases h
            exact ⟨rfl, rfl⟩
          · exact absurd h (by simp)

theorem updCmd_task (st : SysState) (i : Nat) (c : Command) :
    (updCmd st i c).task = st.task := rfl

theorem updCmd_cmds_self (st : SysState) (i : Nat) (c : Command) :
    (updCmd st i c).cmds i = c := by
  simp [updCmd]

theorem updCmd_cmds_other (st : SysState) (i j : Nat) (c : Command)
    (h : j ≠ i) : (updCmd st i c).cmds j = st.cmds j := by
  simp [updCmd, h]

theorem resultSet_processes_eq (t : Task) (r : TaskResult) :
    ((t.resultSet r).1).processes = t.processes := rfl

theorem set_status_plain_ok (t : Task) (new : TaskStatus)
    (h : ¬ new.value < t._status.value) :
    t.set_status new none none = Except.ok { t with _status := new } := by
  simp only [Task.set_status]
  rw [if_neg h]

theorem allDoneStage_not_running (st : SysState) (i : Nat)
    (h : st.task._status ≠ TaskStatus.RUNNING) :
    allDoneStage st i = st := by
  simp only [allDoneStage]
  rw [if_pos h]

/-- C7 counterexample: the repository's own slow-start scenario reaches
`Task.status = TERMINATED` (driven by the early-exit kill after command 1
returned `sat`) while member command 0 — whose start-delay timer has not
fired — was never started, hence is not finished. -/
theorem terminated_with_unstarted_member_cex :
    (run init7 trace7).task._status = TaskStatus.TERMINATED ∧
    (run init7 trace7).task.processes = [0, 1] ∧
    ((run init7 trace7).cmds 0).started = false ∧
    ((run init7 trace7).cmds 0).done = false ∧
    (run init7 trace7).task._result = some TaskResult.SAT :=
  ⟨rfl, rfl, rfl, rfl, rfl⟩

/-- C7 amended: when the all-commands-done branch of
`_on_process_finished` itself establishes `Task.status = TERMINATED`
(core.py 553-558, guarded by `all(command.done() for command in
task.processes)`), every member Command of the resulting state is
finished; the subsequent result-adoption mutations touch only result
caches.  On the `kill()` path no such guarantee exists: members may be
unstarted, as the counterexample and the repository's own test show, a
SIGKILLed member may not have exited yet (`_kill_process` returns without
waiting after the fallback kill), and a firing start-delay timer can
spawn a member while `kill()` joins its killers. -/
theorem all_done_termination_members_finished (st : SysState) (i : Nat)
    (hpre : st.task._status ≠ TaskStatus.TERMINATED)
    (hpost : (allDoneStage st i).task._status = TaskStatus.TERMINATED) :
    ∀ idx ∈ (allDoneStage st i).task.processes,
      ((allDoneStage st i).cmds idx).done = true := by
  by_cases hrun : st.task._status ≠ TaskStatus.RUNNING
  · rw [allDoneStage_not_running st i hrun] at hpost ⊢
    exact absurd hpost hpre
  · have hr : st.task._status = TaskStatus.RUNNING := not_not.mp hrun
    by_cases hall : (st.task.processes.all fun j => (st.cmds j).done) = true
    · have hdone : ∀ idx ∈ st.task.processes, (st.cmds idx).done = true :=
        fun idx hidx => List.all_eq_true.mp hall idx hidx
      have hss : st.task.set_status TaskStatus.TERMINATED none none
          = Except.ok { st.task with _status := TaskStatus.TERMINATED } :=
        set_status_plain_ok st.task TaskStatus.TERMINATED (by rw [hr]; decide)
      simp only [allDoneStage, if_neg hrun, if_pos hall, hss, applySet_ok]
        at hpost ⊢
      split at hpost
      · cases hres : (({ st with task :=
            { st.task with _status := TaskStatus.TERMINATED } } :
              SysState).cmds i).resultOp with
        | error e =>
          rename_i hug
          rw [if_pos hug]
          simp only [hres]
          intro idx hidx
          exact hdone idx hidx
        | ok rc =>
          obtain ⟨r, c2⟩ := rc
          rename_i hug
          rw [if_pos hug]
          simp only [hres]
          obtain ⟨hp2, hk2⟩ := resultOp_shape _ _ _ hres
          intro idx hidx
          simp only [resultSet_processes_eq, updCmd_task] at hidx
          by_cases hij : idx = i
          · subst hij
            simp only [updCmd_cmds_self]
            rw [done_congr c2 _ hp2]
            exact hdone idx hidx
          · simp only [updCmd_cmds_other _ _ _ _ hij]
            exact hdone idx hidx
      · rename_i hug
        rw [if_neg hug]
        intro idx hidx
        exact hdone idx hidx
    · simp only [allDoneStage, if_neg hrun, if_neg hall] at hpost
      exact absurd hpost hpre

/-- Witness for the amended C7: the all-done transition on a RUNNING task
with one finished member leaves that member finished. -/
theorem all_done_termination_members_finished_witness :
    ((allDoneStage stC7 0).cmds 0).done = true :=
  all_done_termination_members_finished stC7 0 (by decide) (by decide) 0
    (by decide)

end Jsi